import Mathlib

/-!
Formal model of the klippy heater control core: `klippy/heater.py` and
`klippy/extras/heater_calibrate.py`, embedded shallowly over `ℚ`
(Python floats are idealised as exact rationals).  External effects are
made explicit: a physical PWM driver write `mcu_pwm.set_pwm(time, value)`
becomes an `Option PwmWrite` output, a raised exception becomes an
`Option String`, and `math.exp` (a transcendental the FOPDT model only
feeds through) is a function parameter `expf`.
-/

/-- `MAX_HEAT_TIME = 5.0` from heater.py. -/
def MAX_HEAT_TIME : ℚ := 5

/-- `AMBIENT_TEMP = 25.` from heater.py. -/
def AMBIENT_TEMP : ℚ := 25

/-- `PID_PARAM_BASE = 255.` from heater.py. -/
def PID_PARAM_BASE : ℚ := 255

/-- `INV_AMBIENT_SMOOTH = 1. / 8.` from heater.py. -/
def INV_AMBIENT_SMOOTH : ℚ := 1 / 8

/-- `MIN_AMBIENT = 0.` from heater.py. -/
def MIN_AMBIENT : ℚ := 0

/-- `INV_TEMP_SMOOTH = 1. / 2.` from heater.py. -/
def INV_TEMP_SMOOTH : ℚ := 1 / 2

/-- One physical driver write `self.mcu_pwm.set_pwm(pwm_time, value)`. -/
structure PwmWrite where
  time : ℚ
  value : ℚ
deriving DecidableEq, Repr

/-- The mutable state of `class Heater` (heater.py) that the modelled
operations read or write, plus its configuration constants. -/
structure Heater where
  pwm_delay : ℚ
  max_power : ℚ
  min_temp : ℚ
  max_temp : ℚ
  min_extrude_temp : ℚ
  last_temp : ℚ
  last_temp_time : ℚ
  target_temp : ℚ
  can_extrude : Bool
  next_pwm_time : ℚ
  last_pwm_value : ℚ
deriving DecidableEq, Repr

/-- `Heater.set_pwm(read_time, value)` (heater.py lines 62-76).
Returns the new heater state, the driver write performed (if any), and
the pair the Python method returns.  Python's falsy test
`not self.last_pwm_value` is `last_pwm_value = 0`; the literals `0.05`
and `0.75` are `1/20` and `3/4`. -/
def Heater.set_pwm (h : Heater) (read_time value0 : ℚ) :
    Heater × Option PwmWrite × (ℚ × ℚ) :=
  let value := if h.target_temp ≤ 0 then 0 else value0
  if (read_time < h.next_pwm_time ∨ h.last_pwm_value = 0)
      ∧ |value - h.last_pwm_value| < 1 / 20 then
    (h, none, (0, h.last_pwm_value))
  else
    let pwm_time := read_time + h.pwm_delay
    ({ h with next_pwm_time := pwm_time + (3 / 4) * MAX_HEAT_TIME,
              last_pwm_value := value },
     some ⟨pwm_time, value⟩, (pwm_time, value))

/-- `Heater.set_temp(print_time, degrees)` (heater.py lines 85-90).
`some msg` models the raised `error`; on a raise the heater state is
returned unchanged.  Python's truthiness `if degrees` is `degrees ≠ 0`. -/
def Heater.set_temp (h : Heater) (degrees : ℚ) : Option String × Heater :=
  if degrees ≠ 0 ∧ (degrees < h.min_temp ∨ h.max_temp < degrees) then
    (some ("Requested temperature out of range"), h)
  else
    (none, { h with target_temp := degrees })

/-- Run a list of `set_pwm(read_time, value)` calls in order, collecting
every physical driver write that was actually performed. -/
def Heater.run_set_pwm (h : Heater) : List (ℚ × ℚ) → Heater × List PwmWrite
  | [] => (h, [])
  | (rt, v) :: rest =>
    let r := h.set_pwm rt v
    let rec_ := Heater.run_set_pwm r.1 rest
    (rec_.1, r.2.1.toList ++ rec_.2)

/-- The per-algorithm state of `class ControlBangBang` (heater.py). -/
structure ControlBangBang where
  max_delta : ℚ
  heating : Bool
deriving DecidableEq, Repr

/-- `ControlBangBang.temperature_callback` (heater.py lines 130-138).
Returns the new control state, the new heater state, the driver write
(if any), and — as a ghost output for the statements below — the power
value the control law passed to `Heater.set_pwm`. -/
def ControlBangBang.temperature_callback (c : ControlBangBang) (h : Heater)
    (read_time temp : ℚ) : ControlBangBang × Heater × Option PwmWrite × ℚ :=
  let heating :=
    if c.heating = true ∧ h.target_temp + c.max_delta ≤ temp then false
    else if c.heating = false ∧ temp ≤ h.target_temp - c.max_delta then true
    else c.heating
  let power := if heating then h.max_power else 0
  let r := h.set_pwm read_time power
  ({ c with heating := heating }, r.1, r.2.1, power)

/-- `ControlBangBang.check_busy` (heater.py lines 139-140). -/
def ControlBangBang.check_busy (c : ControlBangBang) (h : Heater) : Bool :=
  h.last_temp < h.target_temp - c.max_delta

/-- The per-algorithm state of `class ControlPID` (heater.py). -/
structure ControlPID where
  Kp : ℚ
  Ki : ℚ
  Kd : ℚ
  min_deriv_time : ℚ
  temp_integ_max : ℚ
  prev_temp : ℚ
  prev_temp_time : ℚ
  prev_temp_deriv : ℚ
  prev_temp_integ : ℚ
deriving DecidableEq, Repr

/-- `ControlPID.__init__` (heater.py lines 151-162), with the configured
values `pid_Kp`, `pid_Ki`, `pid_Kd`, `pid_deriv_time` and
`pid_integral_max` passed explicitly. -/
def ControlPID.init (pid_Kp pid_Ki pid_Kd pid_deriv_time pid_integral_max : ℚ) :
    ControlPID :=
  { Kp := pid_Kp / PID_PARAM_BASE
    Ki := pid_Ki / PID_PARAM_BASE
    Kd := pid_Kd / PID_PARAM_BASE
    min_deriv_time := pid_deriv_time
    temp_integ_max := pid_integral_max / (pid_Ki / PID_PARAM_BASE)
    prev_temp := AMBIENT_TEMP
    prev_temp_time := 0
    prev_temp_deriv := 0
    prev_temp_integ := 0 }

/-- `ControlPID.temperature_callback` (heater.py lines 163-187).  Same
output convention as the bang-bang callback: the last component is the
power value passed to `Heater.set_pwm`. -/
def ControlPID.temperature_callback (c : ControlPID) (h : Heater)
    (read_time temp : ℚ) : ControlPID × Heater × Option PwmWrite × ℚ :=
  let time_diff := read_time - c.prev_temp_time
  let temp_diff := temp - c.prev_temp
  let temp_deriv :=
    if c.min_deriv_time ≤ time_diff then
      temp_diff / time_diff
    else
      (c.prev_temp_deriv * (c.min_deriv_time - time_diff) + temp_diff)
        / c.min_deriv_time
  let temp_err := h.target_temp - temp
  let temp_integ := c.prev_temp_integ + temp_err * time_diff
  let temp_integ := max 0 (min c.temp_integ_max temp_integ)
  let co := c.Kp * temp_err + c.Ki * temp_integ - c.Kd * temp_deriv
  let bounded_co := max 0 (min h.max_power co)
  let r := h.set_pwm read_time bounded_co
  ({ c with prev_temp := temp
            prev_temp_time := read_time
            prev_temp_deriv := temp_deriv
            prev_temp_integ :=
              if co = bounded_co then temp_integ else c.prev_temp_integ },
   r.1, r.2.1, bounded_co)

/-- The per-algorithm state of `class ControlFOPDT` (heater.py), with the
derived constants its `__init__` computes.  `math.exp` appears only
through the `expf` parameter of the operations below. -/
structure ControlFOPDT where
  gain : ℚ
  inv_gain : ℚ
  inv_time_constant : ℚ
  inv_delay : ℚ
  first_set_temp : Bool
  start_time : ℚ
  last_pwm_time : ℚ
  next_pwm_time : ℚ
  last_model_time : ℚ
  last_pwm : ℚ
  next_pwm : ℚ
  model_temp : ℚ
  last_model_temp : ℚ
  model_smooth_temp : ℚ
  smooth_ambient : ℚ
  did_fault : Bool
  Kp : ℚ
  prev_temp : ℚ
  prev_temp_time : ℚ
  temp_slope : ℚ
deriving DecidableEq, Repr

/-- `ControlFOPDT.calc_model_temp` (heater.py lines 243-247). -/
def ControlFOPDT.calc_model_temp (expf : ℚ → ℚ) (c : ControlFOPDT)
    (read_time : ℚ) : ℚ :=
  let time_diff := read_time - c.last_pwm_time
  let tc_factor := expf (-time_diff * c.inv_time_constant)
  c.model_temp * tc_factor + c.gain * c.last_pwm * (1 - tc_factor)

/-- `ControlFOPDT.note_temperature` (heater.py lines 248-271).  Reads the
heater only for `target_temp` (the fault check). -/
def ControlFOPDT.note_temperature (expf : ℚ → ℚ) (c : ControlFOPDT)
    (h : Heater) (read_time temp : ℚ) : ControlFOPDT :=
  let c :=
    if c.last_pwm ≠ c.next_pwm ∧ c.next_pwm_time < read_time then
      { c with model_temp := ControlFOPDT.calc_model_temp expf c c.next_pwm_time
               last_pwm := c.next_pwm
               last_pwm_time := c.next_pwm_time }
    else c
  let model_temp := ControlFOPDT.calc_model_temp expf c read_time
  let c := { c with last_model_temp := model_temp }
  let time_diff := read_time - c.last_model_time
  let c := { c with last_model_time := read_time }
  let smooth_factor := 1 - expf (-time_diff * c.inv_delay)
  let c := { c with model_smooth_temp :=
    c.model_smooth_temp + (model_temp - c.model_smooth_temp) * smooth_factor }
  let ambient := temp - c.model_smooth_temp
  let ambient_factor := 1 - expf (-time_diff * INV_AMBIENT_SMOOTH)
  let c := { c with smooth_ambient :=
    c.smooth_ambient + (ambient - c.smooth_ambient) * ambient_factor }
  if c.smooth_ambient < MIN_AMBIENT ∧ c.did_fault = false
      ∧ temp ≤ h.target_temp then
    { c with did_fault := true }
  else c

/-- `ControlFOPDT.set_pwm` (heater.py lines 272-279): forwards to
`Heater.set_pwm` and re-anchors the model at the pwm edge. -/
def ControlFOPDT.set_pwm (expf : ℚ → ℚ) (c : ControlFOPDT) (h : Heater)
    (read_time value : ℚ) : ControlFOPDT × Heater × Option PwmWrite :=
  let r := h.set_pwm read_time value
  let pwm_time := r.2.2.1
  let value := r.2.2.2
  let c :=
    if c.last_pwm ≠ c.next_pwm then
      { c with model_temp := ControlFOPDT.calc_model_temp expf c c.next_pwm_time
               last_pwm := c.next_pwm
               last_pwm_time := c.next_pwm_time }
    else c
  ({ c with next_pwm_time := pwm_time, next_pwm := value }, r.1, r.2.1)

/-- `ControlFOPDT.note_first_temp` (heater.py lines 280-293); the
reactor's `monotonic()` clock reading is the explicit input `curtime`. -/
def ControlFOPDT.note_first_temp (c : ControlFOPDT) (curtime : ℚ) :
    ControlFOPDT :=
  let c := { c with first_set_temp := false }
  if c.start_time + 5 / c.inv_time_constant ≤ curtime then c
  else
    let delta := c.smooth_ambient - AMBIENT_TEMP
    if delta ≤ 0 then c
    else
      { c with model_temp := c.model_temp + delta
               model_smooth_temp := c.model_smooth_temp + delta
               smooth_ambient := c.smooth_ambient - delta
               last_pwm_time := c.last_model_time }

/-- `ControlFOPDT.temperature_callback` (heater.py lines 295-310).  Last
output component: the power value passed (via `ControlFOPDT.set_pwm`) to
`Heater.set_pwm`.  Python's truthiness `if self.heater.target_temp` is
`target_temp ≠ 0`. -/
def ControlFOPDT.temperature_callback (expf : ℚ → ℚ) (c : ControlFOPDT)
    (h : Heater) (curtime read_time temp : ℚ) :
    ControlFOPDT × Heater × Option PwmWrite × ℚ :=
  let c :=
    if h.target_temp ≠ 0 ∧ c.first_set_temp = true then
      c.note_first_temp curtime
    else c
  let c := ControlFOPDT.note_temperature expf c h read_time temp
  let time_diff := read_time - c.prev_temp_time
  let temp_diff := temp - c.prev_temp
  let c := { c with prev_temp := temp }
  let smooth_factor := 1 - expf (-time_diff * INV_TEMP_SMOOTH)
  let c := { c with temp_slope :=
    c.temp_slope + (temp_diff - c.temp_slope) * smooth_factor }
  let target_temp := h.target_temp - c.smooth_ambient
  let bias := target_temp * c.inv_gain
  let temp_err := target_temp - c.last_model_temp
  let bounded_co := max 0 (min h.max_power (bias + c.Kp * temp_err))
  let r := ControlFOPDT.set_pwm expf c h read_time bounded_co
  (r.1, r.2.1, r.2.2, bounded_co)

/-- The state of `class ControlBumpTest` (heater_calibrate.py).  The
Python lists grow by `append`, so the model appends at the right end and
`temp_samples[0]` is the head. -/
structure ControlBumpTest where
  state : Nat
  done_temperature : ℚ
  last_pwm : ℚ
  pwm_samples : List (ℚ × ℚ)
  temp_samples : List (ℚ × ℚ)
  ambient_temp : ℚ
deriving DecidableEq, Repr

/-- `ControlBumpTest.set_pwm` (heater_calibrate.py lines 59-63): records
a pwm edge at `read_time + pwm_delay` whenever the value changes, then
forwards to `Heater.set_pwm`. -/
def ControlBumpTest.set_pwm (c : ControlBumpTest) (h : Heater)
    (read_time value : ℚ) : ControlBumpTest × Heater × Option PwmWrite :=
  let c :=
    if value ≠ c.last_pwm then
      { c with pwm_samples := c.pwm_samples ++ [(read_time + h.pwm_delay, value)]
               last_pwm := value }
    else c
  let r := h.set_pwm read_time value
  (c, r.1, r.2.1)

/-- `ControlBumpTest.temperature_callback` (heater_calibrate.py lines
64-84): the four-state bump-test machine.  In state 1's completion
branch, `start_temp` is `temp_samples[0][1]` — the head of the sample
list after the current sample was appended — and the heater's live
`target_temp` is overwritten with `done_temperature`. -/
def ControlBumpTest.temperature_callback (c : ControlBumpTest) (h : Heater)
    (read_time temp : ℚ) : ControlBumpTest × Heater × Option PwmWrite :=
  let c := { c with temp_samples := c.temp_samples ++ [(read_time, temp)] }
  if c.state = 0 then
    let r := c.set_pwm h read_time 0
    if 20 ≤ r.1.temp_samples.length then
      ({ r.1 with state := r.1.state + 1 }, r.2.1, r.2.2)
    else r
  else if c.state = 1 then
    if temp < h.target_temp then
      c.set_pwm h read_time h.max_power
    else
      let r := c.set_pwm h read_time 0
      let start_temp := (r.1.temp_samples.headD (0, 0)).2
      let done := start_temp + (r.2.1.target_temp - start_temp) * (35 / 100)
      ({ r.1 with done_temperature := done, state := r.1.state + 1 },
       { r.2.1 with target_temp := done }, r.2.2)
  else if c.state = 2 then
    let r := c.set_pwm h read_time 0
    if temp ≤ c.done_temperature then
      ({ r.1 with state := r.1.state + 1 }, r.2.1, r.2.2)
    else r
  else
    (c, h, none)

/-- `ControlBumpTest.check_busy` (heater_calibrate.py lines 85-88). -/
def ControlBumpTest.check_busy (c : ControlBumpTest) (eventtime : ℚ) : Bool :=
  if c.state < 3 then true else false

/-- Run a list of `(read_time, temp)` samples through
`ControlBumpTest.temperature_callback` in order. -/
def ControlBumpTest.run (c : ControlBumpTest) (h : Heater) :
    List (ℚ × ℚ) → ControlBumpTest × Heater
  | [] => (c, h)
  | (rt, t) :: rest =>
    let r := c.temperature_callback h rt t
    ControlBumpTest.run r.1 r.2.1 rest

/-- The states observed after each callback of a sample list, in order. -/
def ControlBumpTest.runStates (c : ControlBumpTest) (h : Heater) :
    List (ℚ × ℚ) → List Nat
  | [] => []
  | (rt, t) :: rest =>
    let r := c.temperature_callback h rt t
    r.1.state :: ControlBumpTest.runStates r.1 r.2.1 rest

/-- The parameter dictionary passed to the optimizer: keys `gain`,
`time_constant`, `delay` of heater_calibrate.py's `params` dict. -/
structure FopdtParams where
  gain : ℚ
  time_constant : ℚ
  delay : ℚ
deriving DecidableEq, Repr

/-- The sample loop of `ControlBumpTest.model_smoothed_fopdt`
(heater_calibrate.py lines 99-113), carrying the `smooth_temp` and
`last_time` accumulators. -/
def fopdtSmoothSteps (expf : ℚ → ℚ)
    (heater_on_time heater_off_time gain peak_temp : ℚ)
    (inv_time_constant inv_delay ambient_temp : ℚ) :
    List (ℚ × ℚ) → ℚ → ℚ → List ℚ
  | [], _, _ => []
  | (time, _measured_temp) :: rest, smooth_temp, last_time =>
    let rel_temp :=
      if heater_off_time < time then
        peak_temp * expf (-(time - heater_off_time) * inv_time_constant)
      else if heater_on_time < time then
        gain * (1 - expf (-(time - heater_on_time) * inv_time_constant))
      else 0
    let time_diff := time - last_time
    let smooth_factor := 1 - expf (-time_diff * inv_delay)
    let smooth_temp2 := smooth_temp + (rel_temp - smooth_temp) * smooth_factor
    (ambient_temp + smooth_temp2)
      :: fopdtSmoothSteps expf heater_on_time heater_off_time gain peak_temp
           inv_time_constant inv_delay ambient_temp rest smooth_temp2 time

/-- `ControlBumpTest.model_smoothed_fopdt` (heater_calibrate.py lines
90-114): the single heating-then-cooling step prediction at each
recorded sample time. -/
def ControlBumpTest.model_smoothed_fopdt (expf : ℚ → ℚ) (c : ControlBumpTest)
    (gain0 time_constant delay : ℚ) : List ℚ :=
  let heater_on_time := (c.pwm_samples.headD (0, 0)).1
  let heater_off_time := (c.pwm_samples.getD 1 (0, 0)).1
  let gain := gain0 * (c.pwm_samples.headD (0, 0)).2
  let ambient_temp := c.ambient_temp
  let inv_time_constant := 1 / time_constant
  let inv_delay := 1 / delay
  let heat_time := heater_off_time - heater_on_time
  let peak_temp := gain * (1 - expf (-heat_time * inv_time_constant))
  fopdtSmoothSteps expf heater_on_time heater_off_time gain peak_temp
    inv_time_constant inv_delay ambient_temp c.temp_samples 0 0

/-- `ControlBumpTest.least_squares_error` (heater_calibrate.py lines
115-126): the optimizer's objective.  Non-positive parameters get the
sentinel cost `9.9e99 = 99·10^98`; `reactor.pause` is a cooperative
yield with no effect on the value. -/
def ControlBumpTest.least_squares_error (expf : ℚ → ℚ) (c : ControlBumpTest)
    (params : FopdtParams) : ℚ :=
  if params.gain ≤ 0 ∨ params.time_constant ≤ 0 ∨ params.delay ≤ 0 then
    99 * 10 ^ 98
  else
    let model := ControlBumpTest.model_smoothed_fopdt expf c
      params.gain params.time_constant params.delay
    (List.zip c.temp_samples model).foldl
      (fun err p => err + (p.1.2 - p.2) ^ 2) 0

/-- Python tuple `max` of two `(temp, time)` pairs: lexicographic, the
first argument kept on full ties. -/
def pairMax (a b : ℚ × ℚ) : ℚ × ℚ :=
  if a.1 < b.1 ∨ (a.1 = b.1 ∧ a.2 < b.2) then b else a

/-- Python's `max(list)` over `(temp, time)` pairs: the head folded with
`pairMax` over the tail (the empty case is unreachable in the source,
which would raise). -/
def pyMaxPair (l : List (ℚ × ℚ)) : ℚ × ℚ :=
  l.tail.foldl pairMax (l.headD (0, 0))

/-- `ControlBumpTest.calc_fopdt` (heater_calibrate.py lines 127-149).
The external optimizer `mathutil.coordinate_descent` is not part of the
sources and enters as the opaque function argument `coordinate_descent`.
Returns the fitted `(gain, time_constant, delay)` triple together with
the session state after `ambient_temp` was stored. -/
def ControlBumpTest.calc_fopdt (expf : ℚ → ℚ)
    (coordinate_descent :
      List String → FopdtParams → (FopdtParams → ℚ) → FopdtParams)
    (c0 : ControlBumpTest) : (ℚ × ℚ × ℚ) × ControlBumpTest :=
  let heater_on_time := (c0.pwm_samples.headD (0, 0)).1
  let pre_heat := (c0.temp_samples.filter
    (fun s => s.1 ≤ heater_on_time)).map (fun s => s.2)
  let c := { c0 with ambient_temp := pre_heat.sum / (pre_heat.length : ℚ) }
  let mt := pyMaxPair (c.temp_samples.map (fun s => (s.2, s.1)))
  let params : FopdtParams :=
    { gain := mt.1 * 2
      time_constant := (c.temp_samples.getLastD (0, 0)).1 - mt.2
      delay := 10 }
  let new_params := coordinate_descent ["gain", "time_constant", "delay"]
    params (ControlBumpTest.least_squares_error expf c)
  ((new_params.gain, new_params.time_constant, new_params.delay), c)

/-- Membership of the two-sided clamp `max 0 (min M x)` in `[0, M]`. -/
theorem clamp_bounds (M x : ℚ) (hM : 0 ≤ M) :
    0 ≤ max 0 (min M x) ∧ max 0 (min M x) ≤ M :=
  ⟨le_max_left 0 _, max_le hM (min_le_left M x)⟩

/-- Membership of `if P then M else 0` in `[0, M]`. -/
theorem ite_zero_mem (P : Prop) [Decidable P] (M : ℚ) (hM : 0 ≤ M) :
    0 ≤ (if P then M else 0) ∧ (if P then M else 0) ≤ M := by
  split
  · exact ⟨hM, le_rfl⟩
  · exact ⟨le_rfl, hM⟩

/-- `Heater.set_pwm` fully evaluated on both sides of its debounce test. -/
theorem Heater.set_pwm_cases (h : Heater) (rt v : ℚ) :
    (((rt < h.next_pwm_time ∨ h.last_pwm_value = 0)
        ∧ |(if h.target_temp ≤ 0 then 0 else v) - h.last_pwm_value| < 1 / 20)
      ∧ h.set_pwm rt v = (h, none, (0, h.last_pwm_value)))
    ∨ (¬ ((rt < h.next_pwm_time ∨ h.last_pwm_value = 0)
        ∧ |(if h.target_temp ≤ 0 then 0 else v) - h.last_pwm_value| < 1 / 20)
      ∧ h.set_pwm rt v =
        ({ h with next_pwm_time := rt + h.pwm_delay + (3 / 4) * MAX_HEAT_TIME,
                  last_pwm_value := if h.target_temp ≤ 0 then 0 else v },
         some ⟨rt + h.pwm_delay, if h.target_temp ≤ 0 then 0 else v⟩,
         (rt + h.pwm_delay, if h.target_temp ≤ 0 then 0 else v))) := by
  by_cases hc : (rt < h.next_pwm_time ∨ h.last_pwm_value = 0)
      ∧ |(if h.target_temp ≤ 0 then 0 else v) - h.last_pwm_value| < 1 / 20
  · exact Or.inl ⟨hc, by unfold Heater.set_pwm; rw [if_pos hc]⟩
  · exact Or.inr ⟨hc, by unfold Heater.set_pwm; rw [if_neg hc]⟩

/-- `Heater.set_pwm` never changes `target_temp`. -/
theorem Heater.set_pwm_target (h : Heater) (rt v : ℚ) :
    (h.set_pwm rt v).1.target_temp = h.target_temp := by
  rcases h.set_pwm_cases rt v with ⟨_, he⟩ | ⟨_, he⟩ <;> rw [he]

/-- `Heater.set_pwm` never changes `pwm_delay` or `max_power`. -/
theorem Heater.set_pwm_config (h : Heater) (rt v : ℚ) :
    (h.set_pwm rt v).1.pwm_delay = h.pwm_delay
      ∧ (h.set_pwm rt v).1.max_power = h.max_power := by
  rcases h.set_pwm_cases rt v with ⟨_, he⟩ | ⟨_, he⟩ <;> rw [he] <;> exact ⟨rfl, rfl⟩

/-- C2: whenever `Heater.set_pwm` is called with `target_temp ≤ 0`, any
power it commands is 0 regardless of the `value` argument: the driver
write it performs (if any) carries value 0, and when a write is
performed the cached `last_pwm_value` becomes 0. -/
theorem set_pwm_zero_target_commands_zero (h : Heater) (read_time value : ℚ)
    (ht : h.target_temp ≤ 0) :
    ((h.set_pwm read_time value).2.1.map PwmWrite.value = none
      ∨ (h.set_pwm read_time value).2.1.map PwmWrite.value = some 0)
    ∧ ((h.set_pwm read_time value).2.1 ≠ none →
        (h.set_pwm read_time value).1.last_pwm_value = 0) := by
  rcases h.set_pwm_cases read_time value with ⟨_, he⟩ | ⟨_, he⟩
  · rw [he]
    exact ⟨Or.inl rfl, fun hn => absurd rfl hn⟩
  · rw [he]
    refine ⟨Or.inr ?_, fun _ => ?_⟩ <;> simp [if_pos ht]

/-- Concrete heater state for the C2 witness: heating history left
`last_pwm_value = 1/2`, target now 0. -/
def heaterC2 : Heater :=
  { pwm_delay := 3 / 10, max_power := 1, min_temp := 0, max_temp := 300,
    min_extrude_temp := 170, last_temp := 90, last_temp_time := 9,
    target_temp := 0, can_extrude := false, next_pwm_time := 5,
    last_pwm_value := 1 / 2 }

/-- C2 witness: at `read_time = 10`, `value = 1` the call performs a
driver write of value 0 and caches 0. -/
theorem set_pwm_zero_target_commands_zero_witness :
    ((heaterC2.set_pwm 10 1).2.1.map PwmWrite.value = none
      ∨ (heaterC2.set_pwm 10 1).2.1.map PwmWrite.value = some 0)
    ∧ ((heaterC2.set_pwm 10 1).2.1 ≠ none →
        (heaterC2.set_pwm 10 1).1.last_pwm_value = 0) :=
  set_pwm_zero_target_commands_zero heaterC2 10 1 (by norm_num [heaterC2])

/-- C10: when the debounce branch of `Heater.set_pwm` is taken the whole
heater state (in particular `next_pwm_time` and `last_pwm_value`) is
unchanged, no driver write happens, and the return value is
`(0., last_pwm_value)`; otherwise the return value is
`(read_time + pwm_delay, commanded value)` where the commanded value is
the argument after the `target_temp ≤ 0` clamp. -/
theorem set_pwm_suppress_frame (h : Heater) (read_time value : ℚ) :
    (((read_time < h.next_pwm_time ∨ h.last_pwm_value = 0)
        ∧ |(if h.target_temp ≤ 0 then 0 else value) - h.last_pwm_value| < 1 / 20) →
      h.set_pwm read_time value = (h, none, (0, h.last_pwm_value)))
    ∧ (¬ ((read_time < h.next_pwm_time ∨ h.last_pwm_value = 0)
        ∧ |(if h.target_temp ≤ 0 then 0 else value) - h.last_pwm_value| < 1 / 20) →
      (h.set_pwm read_time value).2.1
          = some ⟨read_time + h.pwm_delay, if h.target_temp ≤ 0 then 0 else value⟩
        ∧ (h.set_pwm read_time value).2.2
          = (read_time + h.pwm_delay, if h.target_temp ≤ 0 then 0 else value)) := by
  rcases h.set_pwm_cases read_time value with ⟨hc, he⟩ | ⟨hc, he⟩
  · exact ⟨fun _ => he, fun hn => absurd hc hn⟩
  · exact ⟨fun hp => absurd hp hc, fun _ => by rw [he]; exact ⟨rfl, rfl⟩⟩

/-- C4 (amended): `Heater.set_pwm` is a no-op — heater state unchanged,
no driver write, returns `(0., last_pwm_value)` — if and only if the
post-clamp value differs from `last_pwm_value` by less than 0.05 and
either `read_time` is before the previously scheduled update time or the
last commanded value is 0 (Python's falsy `not self.last_pwm_value`,
true initially and after any commanded 0); otherwise it performs the
driver write at `read_time + pwm_delay` and sets `next_pwm_time` to that
write time plus `0.75 × MAX_HEAT_TIME`. -/
theorem set_pwm_debounce_charn (h : Heater) (read_time value : ℚ) :
    (h.set_pwm read_time value = (h, none, (0, h.last_pwm_value)) ↔
      (|(if h.target_temp ≤ 0 then 0 else value) - h.last_pwm_value| < 1 / 20
        ∧ (read_time < h.next_pwm_time ∨ h.last_pwm_value = 0)))
    ∧ (¬ (|(if h.target_temp ≤ 0 then 0 else value) - h.last_pwm_value| < 1 / 20
        ∧ (read_time < h.next_pwm_time ∨ h.last_pwm_value = 0)) →
      (h.set_pwm read_time value).2.1
          = some ⟨read_time + h.pwm_delay, if h.target_temp ≤ 0 then 0 else value⟩
        ∧ (h.set_pwm read_time value).1.next_pwm_time
          = read_time + h.pwm_delay + (3 / 4) * MAX_HEAT_TIME) := by
  rcases h.set_pwm_cases read_time value with ⟨hc, he⟩ | ⟨hc, he⟩
  · exact ⟨⟨fun _ => ⟨hc.2, hc.1⟩, fun _ => he⟩,
      fun hn => absurd ⟨hc.2, hc.1⟩ hn⟩
  · refine ⟨⟨fun hyp => ?_, fun hyp => absurd ⟨hyp.2, hyp.1⟩ hc⟩,
      fun _ => by rw [he]; exact ⟨rfl, rfl⟩⟩
    rw [he] at hyp
    exact absurd (congrArg (fun p => p.2.1) hyp) (by simp)

/-- Initial-style heater state (target already set to 1) for the C4
counterexample trace. -/
def heaterC4 : Heater :=
  { pwm_delay := 3 / 10, max_power := 1, min_temp := 0, max_temp := 300,
    min_extrude_temp := 170, last_temp := 0, last_temp_time := 0,
    target_temp := 1, can_extrude := false, next_pwm_time := 0,
    last_pwm_value := 0 }

/-- C4 counterexample: after the two-call trace `(1, 0.5), (10, 0)` two
driver updates have been sent, and at the third call `(20, 0.04)` the
read time is not before the scheduled `next_pwm_time` — so the claim's
condition (`Δ < 0.05` and (read_time early or no update ever sent))
is false and it predicts a driver write — yet the code suppresses the
update (the `last_pwm_value = 0` left by the second call re-enables the
debounce). -/
theorem set_pwm_debounce_claim_cex :
    (heaterC4.run_set_pwm [(1, 1 / 2), (10, 0)]).2.length = 2
    ∧ ¬ ((20 : ℚ) < (heaterC4.run_set_pwm [(1, 1 / 2), (10, 0)]).1.next_pwm_time)
    ∧ |(1 / 25 : ℚ) - (heaterC4.run_set_pwm [(1, 1 / 2), (10, 0)]).1.last_pwm_value|
        < 1 / 20
    ∧ ((heaterC4.run_set_pwm [(1, 1 / 2), (10, 0)]).1.set_pwm 20 (1 / 25)).2.1
        = none := by
  norm_num [Heater.run_set_pwm, Heater.set_pwm, heaterC4, MAX_HEAT_TIME, abs]

/-- C6: `Heater.set_temp` raises the out-of-range error iff
`degrees ≠ 0` and `degrees` lies outside `[min_temp, max_temp]`;
`degrees = 0` always succeeds; on success `target_temp` becomes
`degrees` (and nothing else changes); on error the state is unchanged. -/
theorem set_temp_out_of_range_charn (h : Heater) (degrees : ℚ) :
    ((h.set_temp degrees).1 ≠ none ↔
      degrees ≠ 0 ∧ (degrees < h.min_temp ∨ h.max_temp < degrees))
    ∧ (degrees = 0 → (h.set_temp degrees).1 = none)
    ∧ ((h.set_temp degrees).1 = none →
        (h.set_temp degrees).2 = { h with target_temp := degrees })
    ∧ ((h.set_temp degrees).1 ≠ none → (h.set_temp degrees).2 = h) := by
  unfold Heater.set_temp
  by_cases hc : degrees ≠ 0 ∧ (degrees < h.min_temp ∨ h.max_temp < degrees)
  · rw [if_pos hc]
    exact ⟨⟨fun _ => hc, fun _ hn => Option.some_ne_none _ hn⟩,
      fun h0 => absurd h0 hc.1, fun hn => absurd hn (Option.some_ne_none _),
      fun _ => rfl⟩
  · rw [if_neg hc]
    exact ⟨⟨fun hn => absurd rfl hn, fun hcc => absurd hcc hc⟩,
      fun _ => rfl, fun _ => rfl, fun hn => absurd rfl hn⟩

/-- C5: in `ControlPID.temperature_callback` the integral candidate is
clamped to `[0, temp_integ_max]` (with `temp_integ_max` configured as
`integral_max / Ki` in `ControlPID.init`), and the stored integral for
the next sample is the clamped candidate exactly when the unclamped
output `Kp·err + Ki·integ − Kd·deriv` equals the output clamped to
`[0, max_power]`, and the previous integral (frozen) otherwise. -/
theorem pid_integral_clamped_antiwindup (c : ControlPID) (h : Heater)
    (read_time temp : ℚ) (him : 0 ≤ c.temp_integ_max) :
    let time_diff := read_time - c.prev_temp_time
    let temp_diff := temp - c.prev_temp
    let temp_deriv :=
      if c.min_deriv_time ≤ time_diff then temp_diff / time_diff
      else (c.prev_temp_deriv * (c.min_deriv_time - time_diff) + temp_diff)
        / c.min_deriv_time
    let temp_err := h.target_temp - temp
    let temp_integ :=
      max 0 (min c.temp_integ_max (c.prev_temp_integ + temp_err * time_diff))
    let co := c.Kp * temp_err + c.Ki * temp_integ - c.Kd * temp_deriv
    let bounded_co := max 0 (min h.max_power co)
    (0 ≤ temp_integ ∧ temp_integ ≤ c.temp_integ_max)
    ∧ ((c.temperature_callback h read_time temp).1.prev_temp_integ
        = if co = bounded_co then temp_integ else c.prev_temp_integ)
    ∧ (∀ kp ki kd dt im : ℚ,
        (ControlPID.init kp ki kd dt im).temp_integ_max
          = im / (ControlPID.init kp ki kd dt im).Ki) := by
  intro time_diff temp_diff temp_deriv temp_err temp_integ co bounded_co
  exact ⟨⟨le_max_left _ _, max_le him (min_le_left _ _)⟩, rfl,
    fun _ _ _ _ _ => rfl⟩

/-- Concrete PID state for the C5 witness. -/
def pidC5 : ControlPID :=
  { Kp := 1, Ki := 1 / 10, Kd := 1, min_deriv_time := 2, temp_integ_max := 10,
    prev_temp := 25, prev_temp_time := 0, prev_temp_deriv := 0,
    prev_temp_integ := 0 }

/-- Concrete heater for the C5 witness. -/
def heaterC5 : Heater :=
  { pwm_delay := 3 / 10, max_power := 1, min_temp := 0, max_temp := 300,
    min_extrude_temp := 170, last_temp := 25, last_temp_time := 0,
    target_temp := 200, can_extrude := false, next_pwm_time := 0,
    last_pwm_value := 0 }

/-- C5 witness at `read_time = 1`, `temp = 30`. -/
theorem pid_integral_clamped_antiwindup_witness :
    let time_diff := (1 : ℚ) - pidC5.prev_temp_time
    let temp_diff := (30 : ℚ) - pidC5.prev_temp
    let temp_deriv :=
      if pidC5.min_deriv_time ≤ time_diff then temp_diff / time_diff
      else (pidC5.prev_temp_deriv * (pidC5.min_deriv_time - time_diff)
        + temp_diff) / pidC5.min_deriv_time
    let temp_err := heaterC5.target_temp - 30
    let temp_integ :=
      max 0 (min pidC5.temp_integ_max
        (pidC5.prev_temp_integ + temp_err * time_diff))
    let co := pidC5.Kp * temp_err + pidC5.Ki * temp_integ
      - pidC5.Kd * temp_deriv
    let bounded_co := max 0 (min heaterC5.max_power co)
    (0 ≤ temp_integ ∧ temp_integ ≤ pidC5.temp_integ_max)
    ∧ ((pidC5.temperature_callback heaterC5 1 30).1.prev_temp_integ
        = if co = bounded_co then temp_integ else pidC5.prev_temp_integ)
    ∧ (∀ kp ki kd dt im : ℚ,
        (ControlPID.init kp ki kd dt im).temp_integ_max
          = im / (ControlPID.init kp ki kd dt im).Ki) :=
  pid_integral_clamped_antiwindup pidC5 heaterC5 1 30 (by norm_num [pidC5])

/-- C9: the derivative `ControlPID.temperature_callback` stores is the
raw slope `temp_diff / time_diff` when the sample interval reaches
`min_deriv_time`, and otherwise is the previous derivative low-pass
filtered toward that raw slope with weight
`time_diff / min_deriv_time`. -/
theorem pid_derivative_lowpass (c : ControlPID) (h : Heater)
    (read_time temp : ℚ) (hlt : c.prev_temp_time < read_time)
    (hmdt : 0 < c.min_deriv_time) :
    (read_time - c.prev_temp_time < c.min_deriv_time →
      (c.temperature_callback h read_time temp).1.prev_temp_deriv
        = c.prev_temp_deriv
          + ((read_time - c.prev_temp_time) / c.min_deriv_time)
            * ((temp - c.prev_temp) / (read_time - c.prev_temp_time)
                - c.prev_temp_deriv))
    ∧ (c.min_deriv_time ≤ read_time - c.prev_temp_time →
      (c.temperature_callback h read_time temp).1.prev_temp_deriv
        = (temp - c.prev_temp) / (read_time - c.prev_temp_time)) := by
  have hred : (c.temperature_callback h read_time temp).1.prev_temp_deriv
      = if c.min_deriv_time ≤ read_time - c.prev_temp_time then
          (temp - c.prev_temp) / (read_time - c.prev_temp_time)
        else (c.prev_temp_deriv
            * (c.min_deriv_time - (read_time - c.prev_temp_time))
            + (temp - c.prev_temp)) / c.min_deriv_time := rfl
  have htd : read_time - c.prev_temp_time ≠ 0 := sub_ne_zero.mpr (ne_of_gt hlt)
  have hm : c.min_deriv_time ≠ 0 := ne_of_gt hmdt
  constructor
  · intro hcase
    rw [hred, if_neg (not_le.mpr hcase)]
    field_simp
    ring
  · intro hcase
    rw [hred, if_pos hcase]

/-- Concrete PID state for the C9 witness (sample interval 1 is shorter
than `min_deriv_time = 2`, so the low-pass branch is exercised). -/
def pidC9 : ControlPID :=
  { Kp := 1, Ki := 1 / 10, Kd := 1, min_deriv_time := 2, temp_integ_max := 10,
    prev_temp := 25, prev_temp_time := 0, prev_temp_deriv := 3,
    prev_temp_integ := 0 }

/-- C9 witness at `read_time = 1`, `temp = 30`. -/
theorem pid_derivative_lowpass_witness :
    ((1 : ℚ) - pidC9.prev_temp_time < pidC9.min_deriv_time →
      (pidC9.temperature_callback heaterC5 1 30).1.prev_temp_deriv
        = pidC9.prev_temp_deriv
          + (((1 : ℚ) - pidC9.prev_temp_time) / pidC9.min_deriv_time)
            * (((30 : ℚ) - pidC9.prev_temp) / ((1 : ℚ) - pidC9.prev_temp_time)
                - pidC9.prev_temp_deriv))
    ∧ (pidC9.min_deriv_time ≤ (1 : ℚ) - pidC9.prev_temp_time →
      (pidC9.temperature_callback heaterC5 1 30).1.prev_temp_deriv
        = ((30 : ℚ) - pidC9.prev_temp) / ((1 : ℚ) - pidC9.prev_temp_time)) :=
  pid_derivative_lowpass pidC9 heaterC5 1 30 (by norm_num [pidC9])
    (by norm_num [pidC9])

/-- C1: for every control state (hence along every sequence of
`temperature_callback` inputs), the power value each variant — BangBang,
PID, FOPDT — passes to `Heater.set_pwm` lies in `[0, max_power]`
(the configuration guarantees `0 < max_power ≤ 1`, so `0 ≤ max_power`
below is implied). -/
theorem control_power_in_bounds (h : Heater) (hmp : 0 ≤ h.max_power)
    (cb : ControlBangBang) (cp : ControlPID) (cf : ControlFOPDT)
    (expf : ℚ → ℚ) (curtime read_time temp : ℚ) :
    (0 ≤ (cb.temperature_callback h read_time temp).2.2.2
      ∧ (cb.temperature_callback h read_time temp).2.2.2 ≤ h.max_power)
    ∧ (0 ≤ (cp.temperature_callback h read_time temp).2.2.2
      ∧ (cp.temperature_callback h read_time temp).2.2.2 ≤ h.max_power)
    ∧ (0 ≤ (ControlFOPDT.temperature_callback expf cf h
          curtime read_time temp).2.2.2
      ∧ (ControlFOPDT.temperature_callback expf cf h
          curtime read_time temp).2.2.2 ≤ h.max_power) :=
  ⟨ite_zero_mem _ h.max_power hmp, clamp_bounds h.max_power _ hmp,
    clamp_bounds h.max_power _ hmp⟩

/-- Concrete states for the C1 witness. -/
def heaterC1 : Heater :=
  { pwm_delay := 3 / 10, max_power := 1, min_temp := 0, max_temp := 300,
    min_extrude_temp := 170, last_temp := 25, last_temp_time := 0,
    target_temp := 200, can_extrude := false, next_pwm_time := 0,
    last_pwm_value := 0 }

/-- Concrete bang-bang state for the C1 witness. -/
def bangC1 : ControlBangBang :=
  { max_delta := 2, heating := false }

/-- Concrete FOPDT state for the C1 witness (a fresh controller with
gain 50, time constant 60 s, delay 5 s). -/
def fopdtC1 : ControlFOPDT :=
  { gain := 50, inv_gain := 1 / 50, inv_time_constant := 1 / 60,
    inv_delay := 1 / 5, first_set_temp := true, start_time := 0,
    last_pwm_time := 0, next_pwm_time := 0, last_model_time := 0,
    last_pwm := 0, next_pwm := 0, model_temp := 0, last_model_temp := 0,
    model_smooth_temp := 0, smooth_ambient := 25, did_fault := false,
    Kp := 7 / 10 * 60 / 50, prev_temp := 25, prev_temp_time := 0,
    temp_slope := 0 }

/-- A stand-in for `math.exp` in witnesses (the bound holds for any
`expf`). -/
def expfC1 : ℚ → ℚ :=
  fun _ => 1

/-- C1 witness at `curtime = 0`, `read_time = 1`, `temp = 195`. -/
theorem control_power_in_bounds_witness :
    (0 ≤ (bangC1.temperature_callback heaterC1 1 195).2.2.2
      ∧ (bangC1.temperature_callback heaterC1 1 195).2.2.2
          ≤ heaterC1.max_power)
    ∧ (0 ≤ (pidC5.temperature_callback heaterC1 1 195).2.2.2
      ∧ (pidC5.temperature_callback heaterC1 1 195).2.2.2
          ≤ heaterC1.max_power)
    ∧ (0 ≤ (ControlFOPDT.temperature_callback expfC1 fopdtC1 heaterC1
          0 1 195).2.2.2
      ∧ (ControlFOPDT.temperature_callback expfC1 fopdtC1 heaterC1
          0 1 195).2.2.2 ≤ heaterC1.max_power) :=
  control_power_in_bounds heaterC1 (by norm_num [heaterC1]) bangC1 pidC5
    fopdtC1 expfC1 0 1 195

/-- `ControlBumpTest.set_pwm` never changes the session's `state`. -/
theorem bump_set_pwm_state (c : ControlBumpTest) (h : Heater) (rt v : ℚ) :
    (c.set_pwm h rt v).1.state = c.state := by
  simp only [ControlBumpTest.set_pwm]
  split <;> rfl

/-- `ControlBumpTest.set_pwm` never changes the session's recorded
temperature samples. -/
theorem bump_set_pwm_temp_samples (c : ControlBumpTest) (h : Heater)
    (rt v : ℚ) : (c.set_pwm h rt v).1.temp_samples = c.temp_samples := by
  simp only [ControlBumpTest.set_pwm]
  split <;> rfl

/-- `ControlBumpTest.set_pwm` never changes the session's
`done_temperature`. -/
theorem bump_set_pwm_done (c : ControlBumpTest) (h : Heater) (rt v : ℚ) :
    (c.set_pwm h rt v).1.done_temperature = c.done_temperature := by
  simp only [ControlBumpTest.set_pwm]
  split <;> rfl

/-- The heater component returned by `ControlBumpTest.set_pwm` is the
one `Heater.set_pwm` returns. -/
theorem bump_set_pwm_heater (c : ControlBumpTest) (h : Heater) (rt v : ℚ) :
    (c.set_pwm h rt v).2.1 = (h.set_pwm rt v).1 :=
  rfl

/-- Each bump-test callback leaves `state` unchanged or, when the
current state is at most 2, advances it by exactly one. -/
theorem bump_step_state_cases (c : ControlBumpTest) (h : Heater) (rt t : ℚ) :
    (c.temperature_callback h rt t).1.state = c.state
    ∨ (c.state ≤ 2 ∧ (c.temperature_callback h rt t).1.state = c.state + 1) := by
  simp only [ControlBumpTest.temperature_callback]
  split
  · split
    · exact Or.inr ⟨by omega, by simp [bump_set_pwm_state]⟩
    · exact Or.inl (by simp [bump_set_pwm_state])
  · split
    · split
      · exact Or.inl (by simp [bump_set_pwm_state])
      · exact Or.inr ⟨by omega, by simp [bump_set_pwm_state]⟩
    · split
      · split
        · exact Or.inr ⟨by omega, by simp [bump_set_pwm_state]⟩
        · exact Or.inl (by simp [bump_set_pwm_state])
      · exact Or.inl rfl

/-- C7: along any sequence of bump-test callbacks the observed states
form a non-decreasing chain advancing by at most one per callback and
staying within `{0,1,2,3}`, and `check_busy` is true iff `state < 3`. -/
theorem bump_state_machine_monotone (c : ControlBumpTest) (h : Heater)
    (samples : List (ℚ × ℚ)) (hc : c.state ≤ 3) :
    List.Chain (fun a b => a ≤ b ∧ b ≤ a + 1) c.state
      (ControlBumpTest.runStates c h samples)
    ∧ (∀ s ∈ ControlBumpTest.runStates c h samples, s ≤ 3)
    ∧ (ControlBumpTest.check_busy c 0 = true ↔ c.state < 3) := by
  induction samples generalizing c h with
  | nil =>
    refine ⟨List.Chain.nil, by simp [ControlBumpTest.runStates], ?_⟩
    by_cases h3 : c.state < 3 <;> simp [ControlBumpTest.check_busy, h3]
  | cons p rest ih =>
    obtain ⟨rt, t⟩ := p
    have hstep := bump_step_state_cases c h rt t
    have hle3 : (c.temperature_callback h rt t).1.state ≤ 3 := by
      rcases hstep with he | ⟨h2, he⟩ <;> omega
    have ihh := ih (c.temperature_callback h rt t).1
      (c.temperature_callback h rt t).2.1 hle3
    have hR : c.state ≤ (c.temperature_callback h rt t).1.state
        ∧ (c.temperature_callback h rt t).1.state ≤ c.state + 1 := by
      rcases hstep with he | ⟨h2, he⟩ <;> omega
    refine ⟨?_, ?_, ?_⟩
    · simp only [ControlBumpTest.runStates]
      exact List.Chain.cons hR ihh.1
    · simp only [ControlBumpTest.runStates]
      intro s hs
      rcases List.mem_cons.mp hs with hss | hss
      · omega
      · exact ihh.2.1 s hss
    · by_cases h3 : c.state < 3 <;> simp [ControlBumpTest.check_busy, h3]

/-- Fresh bump-test session for the C7 witness. -/
def bumpC7 : ControlBumpTest :=
  { state := 0, done_temperature := 0, last_pwm := 0, pwm_samples := [],
    temp_samples := [], ambient_temp := 0 }

/-- C7 witness: a fresh session run on two samples. -/
theorem bump_state_machine_monotone_witness :
    List.Chain (fun a b => a ≤ b ∧ b ≤ a + 1) bumpC7.state
      (ControlBumpTest.runStates bumpC7 heaterC1 [(1, 25), (2, 26)])
    ∧ (∀ s ∈ ControlBumpTest.runStates bumpC7 heaterC1 [(1, 25), (2, 26)],
        s ≤ 3)
    ∧ (ControlBumpTest.check_busy bumpC7 0 = true ↔ bumpC7.state < 3) :=
  bump_state_machine_monotone bumpC7 heaterC1 [(1, 25), (2, 26)]
    (by norm_num [bumpC7])

/-- C3 (amended): when RampUp (state 1) ends — the first sample with
`temp ≥ target` — `done_temperature` is computed as
`start_temp + 0.35 × (target − start_temp)` where `start_temp` is the
FIRST temperature sample of the whole session (`temp_samples[0]`,
recorded at the very first Idle-state callback, not the temperature at
entry into RampUp); the session's working target is overwritten to
`done_temperature` and the state transitions to Cooling (2). -/
theorem bump_rampup_end_uses_first_sample (c : ControlBumpTest) (h : Heater)
    (rt t : ℚ) (hs : c.state = 1) (hge : ¬ t < h.target_temp) :
    (c.temperature_callback h rt t).1.done_temperature
      = ((c.temp_samples ++ [(rt, t)]).headD (0, 0)).2
        + (h.target_temp - ((c.temp_samples ++ [(rt, t)]).headD (0, 0)).2)
          * (35 / 100)
    ∧ (c.temperature_callback h rt t).1.state = 2
    ∧ (c.temperature_callback h rt t).2.1.target_temp
      = (c.temperature_callback h rt t).1.done_temperature := by
  simp only [ControlBumpTest.temperature_callback, hs, hge]
  norm_num [bump_set_pwm_temp_samples, bump_set_pwm_heater,
    Heater.set_pwm_target, bump_set_pwm_state]

/-- Mid-RampUp session for the C3 witness: first recorded sample has
temperature 10. -/
def bumpC3w : ControlBumpTest :=
  { state := 1, done_temperature := 0, last_pwm := 1,
    pwm_samples := [(3 / 2, 1)], temp_samples := [(1, 10)],
    ambient_temp := 0 }

/-- C3 witness: the RampUp-ending callback at `(5, 200)` against target
200 computes `done_temperature` from the first recorded sample. -/
theorem bump_rampup_end_uses_first_sample_witness :
    (bumpC3w.temperature_callback heaterC1 5 200).1.done_temperature
      = ((bumpC3w.temp_samples ++ [(5, 200)]).headD (0, 0)).2
        + (heaterC1.target_temp
            - ((bumpC3w.temp_samples ++ [(5, 200)]).headD (0, 0)).2)
          * (35 / 100)
    ∧ (bumpC3w.temperature_callback heaterC1 5 200).1.state = 2
    ∧ (bumpC3w.temperature_callback heaterC1 5 200).2.1.target_temp
      = (bumpC3w.temperature_callback heaterC1 5 200).1.done_temperature :=
  bump_rampup_end_uses_first_sample bumpC3w heaterC1 5 200 rfl
    (by norm_num [heaterC1])

/-- The session state after 18 Idle-phase callbacks
`(1,10), (2,20), …, (18,20)` of a fresh session against `heaterC1`:
each such callback only appends its sample (power is already 0 and the
debounced `Heater.set_pwm` performs no write). -/
def bumpC3 : ControlBumpTest :=
  { state := 0, done_temperature := 0, last_pwm := 0, pwm_samples := [],
    temp_samples := [(1, 10), (2, 20), (3, 20), (4, 20), (5, 20), (6, 20),
      (7, 20), (8, 20), (9, 20), (10, 20), (11, 20), (12, 20), (13, 20),
      (14, 20), (15, 20), (16, 20), (17, 20), (18, 20)],
    ambient_temp := 0 }

/-- The remaining samples of the C3 counterexample trace: two more Idle
samples (the second, `(20, 20)`, triggers entry into RampUp, so the
temperature recorded at RampUp entry is 20), one heating sample, and the
sample `(22, 200)` that reaches the target 200 and ends RampUp. -/
def bumpC3samples : List (ℚ × ℚ) :=
  [(19, 20), (20, 20), (21, 20), (22, 200)]

/-- C3 counterexample: on this trace the code sets
`done_temperature = 10 + 0.35 × (200 − 10) = 153/2`, using the first
sample of the session (temperature 10), whereas the claim's formula with
`start_temp` = the temperature recorded at entry into RampUp (20) gives
`20 + 0.35 × (200 − 20) = 83 ≠ 153/2`. -/
theorem bump_done_temperature_entry_cex :
    (bumpC3.run heaterC1 bumpC3samples).1.state = 2
    ∧ (bumpC3.run heaterC1 bumpC3samples).1.done_temperature = 153 / 2
    ∧ ¬ ((153 : ℚ) / 2 = 20 + (200 - 20) * (35 / 100)) := by
  norm_num [bumpC3, heaterC1, bumpC3samples, ControlBumpTest.run,
    ControlBumpTest.temperature_callback, ControlBumpTest.set_pwm,
    Heater.set_pwm, MAX_HEAT_TIME, abs]

/-- `pairMax` returns one of its arguments. -/
theorem pairMax_or (a b : ℚ × ℚ) : pairMax a b = a ∨ pairMax a b = b := by
  unfold pairMax
  split
  · exact Or.inr rfl
  · exact Or.inl rfl

/-- The first component never decreases from the left argument. -/
theorem le_pairMax_left (a b : ℚ × ℚ) : a.1 ≤ (pairMax a b).1 := by
  unfold pairMax
  split
  · rename_i hc
    rcases hc with hlt | ⟨heq, _⟩
    · exact le_of_lt hlt
    · exact le_of_eq heq
  · exact le_rfl

/-- The first component never decreases from the right argument. -/
theorem le_pairMax_right (a b : ℚ × ℚ) : b.1 ≤ (pairMax a b).1 := by
  unfold pairMax
  split
  · exact le_rfl
  · rename_i hn
    exact le_of_not_lt (fun hlt => hn (Or.inl hlt))

/-- A `pairMax` fold yields its seed or a list element. -/
theorem foldl_pairMax_mem (l : List (ℚ × ℚ)) : ∀ a : ℚ × ℚ,
    l.foldl pairMax a = a ∨ l.foldl pairMax a ∈ l := by
  induction l with
  | nil => exact fun a => Or.inl rfl
  | cons b l ih =>
    intro a
    rw [List.foldl_cons]
    rcases ih (pairMax a b) with he | hm
    · rcases pairMax_or a b with h1 | h1
      · rw [he, h1]; exact Or.inl rfl
      · rw [he, h1]; exact Or.inr (List.mem_cons_self b l)
    · exact Or.inr (List.mem_cons_of_mem b hm)

/-- A `pairMax` fold dominates its seed and every list element in the
first component. -/
theorem le_foldl_pairMax (l : List (ℚ × ℚ)) : ∀ a : ℚ × ℚ,
    a.1 ≤ (l.foldl pairMax a).1 ∧ ∀ x ∈ l, x.1 ≤ (l.foldl pairMax a).1 := by
  induction l with
  | nil => exact fun a => ⟨le_rfl, by simp⟩
  | cons b l ih =>
    intro a
    rw [List.foldl_cons]
    refine ⟨le_trans (le_pairMax_left a b) (ih (pairMax a b)).1, ?_⟩
    intro x hx
    rcases List.mem_cons.mp hx with hxb | hxl
    · rw [hxb]
      exact le_trans (le_pairMax_right a b) (ih (pairMax a b)).1
    · exact (ih (pairMax a b)).2 x hxl

/-- `pyMaxPair` of a nonempty list is an element whose first component
dominates every element's first component — Python's `max`. -/
theorem pyMaxPair_spec (l : List (ℚ × ℚ)) (hl : l ≠ []) :
    pyMaxPair l ∈ l ∧ ∀ x ∈ l, x.1 ≤ (pyMaxPair l).1 := by
  cases l with
  | nil => exact absurd rfl hl
  | cons y ys =>
    unfold pyMaxPair
    simp only [List.headD_cons, List.tail_cons]
    constructor
    · rcases foldl_pairMax_mem ys y with he | hm
      · rw [he]; exact List.mem_cons_self y ys
      · exact List.mem_cons_of_mem y hm
    · intro x hx
      rcases List.mem_cons.mp hx with hxy | hxl
      · rw [hxy]
        exact (le_foldl_pairMax ys y).1
      · exact (le_foldl_pairMax ys y).2 x hxl

/-- C8: `ControlBumpTest.calc_fopdt` stores `ambient_temp` as the
arithmetic mean of the temperatures of all samples recorded at or before
the first power-on edge `pwm_samples[0]`, seeds the optimizer with
`gain = 2 × maximum observed temperature` (the fold `pyMaxPair` realises
Python's `max`: it is an actual sample and dominates every recorded
temperature), `time_constant = last sample time − time of the maximum
temperature` and `delay = 10`, invokes the external coordinate-descent
optimizer over the three named parameters with `least_squares_error` as
objective, and returns the optimizer's fitted
`(gain, time_constant, delay)`. -/
theorem calc_fopdt_seeds_and_optimizer (expf : ℚ → ℚ)
    (cd : List String → FopdtParams → (FopdtParams → ℚ) → FopdtParams)
    (c : ControlBumpTest) (hpw : c.pwm_samples ≠ [])
    (hts : c.temp_samples ≠ []) :
    let heater_on_time := (c.pwm_samples.headD (0, 0)).1
    let pre_heat := (c.temp_samples.filter
      (fun s => s.1 ≤ heater_on_time)).map (fun s => s.2)
    let c1 : ControlBumpTest :=
      { c with ambient_temp := pre_heat.sum / (pre_heat.length : ℚ) }
    let mt := pyMaxPair (c.temp_samples.map (fun s => (s.2, s.1)))
    ((ControlBumpTest.calc_fopdt expf cd c).2.ambient_temp
        = pre_heat.sum / (pre_heat.length : ℚ))
    ∧ mt ∈ c.temp_samples.map (fun s => (s.2, s.1))
    ∧ (∀ s ∈ c.temp_samples, s.2 ≤ mt.1)
    ∧ (ControlBumpTest.calc_fopdt expf cd c).1
        = ((cd ["gain", "time_constant", "delay"]
              { gain := mt.1 * 2
                time_constant := (c.temp_samples.getLastD (0, 0)).1 - mt.2
                delay := 10 }
              (ControlBumpTest.least_squares_error expf c1)).gain,
           (cd ["gain", "time_constant", "delay"]
              { gain := mt.1 * 2
                time_constant := (c.temp_samples.getLastD (0, 0)).1 - mt.2
                delay := 10 }
              (ControlBumpTest.least_squares_error expf c1)).time_constant,
           (cd ["gain", "time_constant", "delay"]
              { gain := mt.1 * 2
                time_constant := (c.temp_samples.getLastD (0, 0)).1 - mt.2
                delay := 10 }
              (ControlBumpTest.least_squares_error expf c1)).delay) := by
  intro heater_on_time pre_heat c1 mt
  have hmap : c.temp_samples.map (fun s => (s.2, s.1)) ≠ [] := by
    intro hmm
    exact hts (List.map_eq_nil_iff.mp hmm)
  have hspec := pyMaxPair_spec (c.temp_samples.map (fun s => (s.2, s.1))) hmap
  refine ⟨rfl, hspec.1, ?_, rfl⟩
  intro s hs
  exact hspec.2 (s.2, s.1) (List.mem_map_of_mem (fun s => (s.2, s.1)) hs)

/-- Completed bump-test session for the C8 witness. -/
def bumpC8 : ControlBumpTest :=
  { state := 3, done_temperature := 0, last_pwm := 0,
    pwm_samples := [(3 / 2, 1), (5 / 2, 0)],
    temp_samples := [(1, 25), (2, 30), (3, 28)], ambient_temp := 0 }

/-- Identity stand-in for the external coordinate-descent optimizer in
the C8 witness (the theorem holds for any optimizer). -/
def cdC8 : List String → FopdtParams → (FopdtParams → ℚ) → FopdtParams :=
  fun _ p _ => p

/-- C8 witness on a concrete three-sample session. -/
theorem calc_fopdt_seeds_and_optimizer_witness :
    let heater_on_time := (bumpC8.pwm_samples.headD (0, 0)).1
    let pre_heat := (bumpC8.temp_samples.filter
      (fun s => s.1 ≤ heater_on_time)).map (fun s => s.2)
    let c1 : ControlBumpTest :=
      { bumpC8 with ambient_temp := pre_heat.sum / (pre_heat.length : ℚ) }
    let mt := pyMaxPair (bumpC8.temp_samples.map (fun s => (s.2, s.1)))
    ((ControlBumpTest.calc_fopdt expfC1 cdC8 bumpC8).2.ambient_temp
        = pre_heat.sum / (pre_heat.length : ℚ))
    ∧ mt ∈ bumpC8.temp_samples.map (fun s => (s.2, s.1))
    ∧ (∀ s ∈ bumpC8.temp_samples, s.2 ≤ mt.1)
    ∧ (ControlBumpTest.calc_fopdt expfC1 cdC8 bumpC8).1
        = ((cdC8 ["gain", "time_constant", "delay"]
              { gain := mt.1 * 2
                time_constant := (bumpC8.temp_samples.getLastD (0, 0)).1 - mt.2
                delay := 10 }
              (ControlBumpTest.least_squares_error expfC1 c1)).gain,
           (cdC8 ["gain", "time_constant", "delay"]
              { gain := mt.1 * 2
                time_constant := (bumpC8.temp_samples.getLastD (0, 0)).1 - mt.2
                delay := 10 }
              (ControlBumpTest.least_squares_error expfC1 c1)).time_constant,
           (cdC8 ["gain", "time_constant", "delay"]
              { gain := mt.1 * 2
                time_constant := (bumpC8.temp_samples.getLastD (0, 0)).1 - mt.2
                delay := 10 }
              (ControlBumpTest.least_squares_error expfC1 c1)).delay) :=
  calc_fopdt_seeds_and_optimizer expfC1 cdC8 bumpC8 (by simp [bumpC8])
    (by simp [bumpC8])
